import Mathlib

/-!
Verification development for the Dispatch repository (modules
`dispatching.py` and `dispatch.py`): a multiple-dispatch engine that routes
a call to the first registered implementation whose signature binds the
arguments and whose per-parameter matchers all accept their bound values.

The embedding is shallow: Python runtime values are the inductive `Value`,
Python exceptions are `PyErr` (with `DispatchError` a subclass of
`TypeError`, reflected by `PyErr.isTypeError`), fallible Python code
returns `Except PyErr`.  Callables that may appear as annotations are
`Value.func i`, interpreted by an environment `Env`; registered
implementations are modelled directly as Lean functions from the caller's
positional list and keyword list to an `Except PyErr Value`.
-/

/-- Runtime type references (Python class objects that appear in this
development).  `bool` is a subclass of `int`, as in Python. -/
inductive Ty where
  | int
  | bool
  | str
  | tuple
  | list
  | dict
  | noneT
  | typeT
  | funcT
  deriving DecidableEq, Repr

/-- Subclass test between type references: reflexive, plus Python's
`bool <= int`. -/
def Ty.subclass : Ty → Ty → Bool
  | t, u => t == u || (t == .bool && u == .int)

/-- Python runtime values.  `func i` is a callable object identified by an
index into an environment; `ty t` is a type object. -/
inductive Value where
  | int : Int → Value
  | bool : Bool → Value
  | str : String → Value
  | tuple : List Value → Value
  | list : List Value → Value
  | dict : List (String × Value) → Value
  | none : Value
  | ty : Ty → Value
  | func : Nat → Value

/-- The runtime type of a value, as `type(v)` would report it. -/
def Value.typeOf : Value → Ty
  | .int _ => .int
  | .bool _ => .bool
  | .str _ => .str
  | .tuple _ => .tuple
  | .list _ => .list
  | .dict _ => .dict
  | .none => .noneT
  | .ty _ => .typeT
  | .func _ => .funcT

/-- Python `isinstance(v, t)`: instance of `t` or of a subclass of `t`. -/
def isinstance (v : Value) (t : Ty) : Bool :=
  Ty.subclass v.typeOf t

/-- Python truthiness, as used by `all(...)` and `if`. -/
def Value.truthy : Value → Bool
  | .int n => n != 0
  | .bool b => b
  | .str s => s != ""
  | .tuple l => !l.isEmpty
  | .list l => !l.isEmpty
  | .dict l => !l.isEmpty
  | .none => false
  | .ty _ => true
  | .func _ => true

mutual

/-- Python `==` on the values of this development.  Numeric equality
crosses `bool` and `int` (Python `True == 1`); containers compare
elementwise; function and type objects compare by identity. -/
def Value.pyEq : Value → Value → Bool
  | .int a, .int b => a == b
  | .int a, .bool b => a == (if b then 1 else 0)
  | .bool a, .int b => (if a then (1 : Int) else 0) == b
  | .bool a, .bool b => a == b
  | .str a, .str b => a == b
  | .tuple a, .tuple b => pyEqList a b
  | .list a, .list b => pyEqList a b
  | .dict a, .dict b => pyEqPairs a b
  | .none, .none => true
  | .ty a, .ty b => a == b
  | .func a, .func b => a == b
  | _, _ => false

/-- Elementwise Python `==` on sequences. -/
def pyEqList : List Value → List Value → Bool
  | [], [] => true
  | a :: as, b :: bs => a.pyEq b && pyEqList as bs
  | _, _ => false

/-- Entrywise Python `==` on string-keyed mappings (the call sites in this
development only ever compare mappings built in the same key order). -/
def pyEqPairs : List (String × Value) → List (String × Value) → Bool
  | [], [] => true
  | (k, a) :: as, (k2, b) :: bs => k == k2 && a.pyEq b && pyEqPairs as bs
  | _, _ => false

end

/-- Python exceptions raised in this development.  `dispatchError` carries
the attempted positional arguments, the attempted keyword arguments and
the identity of the dispatch group, exactly the payload of
`DispatchError(args, kwargs, self)`. -/
inductive PyErr where
  | typeError : String → PyErr
  | dispatchError : List Value → List (String × Value) → Nat → PyErr
  | keyError : String → PyErr
  | valueError : String → PyErr
  | attributeError : String → PyErr

/-- Whether an exception is caught by `except TypeError:`.  `DispatchError`
is declared as `class DispatchError(TypeError)` in both modules, so it is
caught too; no other exception kind of this development is a `TypeError`. -/
def PyErr.isTypeError : PyErr → Bool
  | .typeError _ => true
  | .dispatchError _ _ _ => true
  | _ => false

/-- Interpretation of the callable objects `Value.func i` as unary Python
functions (the shape in which annotation callables are invoked). -/
def Env : Type :=
  Nat → Value → Except PyErr Value

/-- Whether `callable(v)` holds: type objects and function objects are
callable, no other value of this development is. -/
def Value.pyCallable : Value → Bool
  | .ty _ => true
  | .func _ => true
  | _ => false

/-- Whether `isinstance(v, type)` holds, i.e. `v` is a type object. -/
def Value.isTypeObj : Value → Bool
  | .ty _ => true
  | _ => false

/-- The type reference held by a type object (junk on other values; only
used under `isTypeObj`). -/
def Value.asTy : Value → Ty
  | .ty t => t
  | _ => .noneT

/-- Calling a value on one argument.  Function objects go through the
environment; calling a non-callable raises `TypeError`, as in Python.
(The matcher compiler never calls a type object: the type branch is
checked first, so that case is unreachable there.) -/
def callUnary (env : Env) : Value → Value → Except PyErr Value
  | .func i, x => env i x
  | .ty _, _ => .error (.typeError "type construction is not modelled")
  | _, _ => .error (.typeError "object is not callable")

/-- The four parameter kinds of `inspect.Parameter` that occur in this
code base (`POSITIONAL_OR_KEYWORD`, `VAR_POSITIONAL`, `KEYWORD_ONLY`,
`VAR_KEYWORD`). -/
inductive ParamKind where
  | posOrKw
  | varPos
  | kwOnly
  | varKw
  deriving DecidableEq, Repr

/-- One declared parameter: its name, kind, optional default and optional
annotation (`Parameter.empty` is `Option.none`). -/
structure Param where
  name : String
  kind : ParamKind
  dflt : Option Value
  anno : Option Value

/-- A signature is the ordered parameter list of `inspect.signature`. -/
abbrev Sig := List Param

/-- An association list standing for `BoundArguments.arguments` (and for
keyword-argument mappings): names in binding order, looked up by name. -/
abbrev Arguments := List (String × Value)

/-- Name lookup in an `Arguments` mapping. -/
def lookupKey (k : String) : Arguments → Option Value
  | [] => Option.none
  | (k2, v) :: rest => if k2 == k then some v else lookupKey k rest

/-- Removal of a key from an `Arguments` mapping (`kwargs.pop`). -/
def removeKey (k : String) : Arguments → Arguments
  | [] => []
  | (k2, v) :: rest => if k2 == k then rest else (k2, v) :: removeKey k rest

/-- Positional phase of `inspect.Signature.bind` (an external collaborator
of the repository, modelled from its documented call-binding rules, spec
section 4.2 step 1): positional arguments fill `posOrKw` parameters left
to right, a `varPos` parameter collects every remaining positional
argument as a tuple, excess positional arguments without a `varPos`
parameter raise `TypeError`, and a parameter filled positionally that is
also named in the keyword arguments raises `TypeError`.  Returns the
positionally bound arguments and the parameters left for the keyword
phase; when the positional arguments run out, every remaining parameter
(including an uncollected `varPos`, which stays unbound) is left to the
keyword phase. -/
def bindPos : Sig → List Value → Arguments → Except PyErr (Arguments × Sig)
  | ps, [], _ => .ok ([], ps)
  | [], _ :: _, _ => .error (.typeError "too many positional arguments")
  | p :: ps, a :: as, kwargs =>
    match p.kind with
    | .varPos => .ok ([(p.name, .tuple (a :: as))], ps)
    | .posOrKw =>
      if kwargs.any fun kv => kv.1 == p.name then
        .error (.typeError "multiple values for argument")
      else
        match bindPos ps as kwargs with
        | .error e => .error e
        | .ok (bound, rest) => .ok ((p.name, a) :: bound, rest)
    | _ => .error (.typeError "too many positional arguments")

/-- Keyword phase of `inspect.Signature.bind`: each remaining non-variadic
parameter takes its value from the keyword arguments by name, or falls
back to having a default; a missing required parameter raises `TypeError`.
A `varKw` parameter is remembered and, if any keyword arguments are left
over at the end, collects them as a mapping (when none are left over it
stays unbound, as in CPython); leftover keyword arguments without a
`varKw` parameter raise `TypeError`.  An unbound `varPos` is skipped. -/
def bindKw : Sig → Arguments → Option String → Except PyErr Arguments
  | [], kwargs, varKwName =>
    match varKwName with
    | some n => if kwargs.isEmpty then .ok [] else .ok [(n, .dict kwargs)]
    | Option.none =>
      if kwargs.isEmpty then .ok []
      else .error (.typeError "got an unexpected keyword argument")
  | p :: ps, kwargs, varKwName =>
    match p.kind with
    | .varPos => bindKw ps kwargs varKwName
    | .varKw => bindKw ps kwargs (some p.name)
    | _ =>
      match lookupKey p.name kwargs with
      | some v =>
        match bindKw ps (removeKey p.name kwargs) varKwName with
        | .error e => .error e
        | .ok rest => .ok ((p.name, v) :: rest)
      | Option.none =>
        if p.dflt.isSome then bindKw ps kwargs varKwName
        else .error (.typeError "missing a required argument")

/-- `inspect.Signature.bind`: structural binding of the call's positional
and keyword arguments onto the declared parameters, with no constraint
checks; raises `TypeError` on any shape mismatch.  The result is the
`BoundArguments.arguments` mapping: explicitly bound parameters only
(defaults are not applied, an uncollected `varPos` or `varKw` is absent). -/
def sigBind (sig : Sig) (args : List Value) (kwargs : Arguments) :
    Except PyErr Arguments :=
  match bindPos sig args kwargs with
  | .error e => .error e
  | .ok (posBound, rest) =>
    match bindKw rest kwargs Option.none with
    | .error e => .error e
    | .ok kwBound => .ok (posBound ++ kwBound)

/-- A compiled matcher: a predicate over one runtime value, which may
itself raise (annotation callables are arbitrary Python functions). -/
abbrev Matcher := Value → Except PyErr Value

/-- A registered implementation, as invoked by the dispatch loop: it
receives a positional argument list and a keyword argument mapping and
returns a value or raises. -/
abbrev Impl := List Value → Arguments → Except PyErr Value

/-- DispatchGroup._make_param_matcher (identical in both modules up to an
eta-expansion of the callable case): if the annotation is a type object,
an is-instance matcher; else if it is callable, the annotation itself is
the matcher; else an equality matcher against the annotation value. -/
def make_param_matcher (env : Env) (anno : Value) : Matcher :=
  if anno.isTypeObj then
    fun x => .ok (.bool (isinstance x anno.asTy))
  else if anno.pyCallable then
    fun x => callUnary env anno x
  else
    fun x => .ok (.bool (x.pyEq anno))

/-- DispatchGroup._make_all_matchers: one `(name, matcher)` pair per
parameter that carries an annotation; unannotated parameters contribute
nothing. -/
def make_all_matchers (env : Env) (params : Sig) : List (String × Matcher) :=
  params.filterMap fun p =>
    p.anno.map fun a => (p.name, make_param_matcher env a)

/-- The generator driven by `all(...)` inside `_bind_args`: evaluate each
matcher on the value bound to its parameter name, in order, stopping at
the first falsy result (later matchers are then not evaluated, as with
Python's short-circuiting `all`).  A matcher whose parameter is absent
from the bound arguments raises `KeyError`, as `bound.arguments[name]`
does; a matcher that raises lets its exception propagate. -/
def allMatchers (bound : Arguments) : List (String × Matcher) → Except PyErr Bool
  | [] => .ok true
  | (name, m) :: rest =>
    match lookupKey name bound with
    | Option.none => .error (.keyError name)
    | some v =>
      match m v with
      | .error e => .error e
      | .ok r => if r.truthy then allMatchers bound rest else .ok false

/-- DispatchGroup._bind_args (named `bind_args` in `dispatch.py`): bind to
the signature (which may raise its own `TypeError`), then require every
matcher to accept its bound value, raising a bare `TypeError` otherwise;
on success return the bound arguments. -/
def bind_args (sig : Sig) (matchers : List (String × Matcher))
    (args : List Value) (kwargs : Arguments) : Except PyErr Arguments :=
  match sigBind sig args kwargs with
  | .error e => .error e
  | .ok bound =>
    match allMatchers bound matchers with
    | .error e => .error e
    | .ok ok => if ok then .ok bound else .error (.typeError "")

/-- One dispatch entry: the data of the pair
`(partial(cls._bind_args, sig, matchers), func)` stored in `callees`. -/
structure Entry where
  sig : Sig
  matchers : List (String × Matcher)
  impl : Impl

/-- The binder of an entry, applied to a call. -/
def Entry.bind (e : Entry) (args : List Value) (kwargs : Arguments) :
    Except PyErr Arguments :=
  bind_args e.sig e.matchers args kwargs

/-- A function as registered: its introspected signature plus its body. -/
structure PyFunc where
  sig : Sig
  impl : Impl

/-- DispatchGroup._make_dispatch: compile the signature's matchers once at
registration and pair the resulting binder with the function. -/
def make_dispatch (env : Env) (f : PyFunc) : Entry :=
  ⟨f.sig, make_all_matchers env f.sig, f.impl⟩

/-- A dispatch group: its object identity (`gid`, standing for the Python
object reference stored into `DispatchError`) and its `callees` deque. -/
structure DispatchGroup where
  gid : Nat
  callees : List Entry


namespace Dispatching

/-- dispatching.DispatchGroup.dispatch, in state-passing form: compile a
dispatch pair for the function and append it at the tail of `callees`
(`self.callees.append(...)`); the method's only mutation of the group. -/
def dispatch (env : Env) (g : DispatchGroup) (f : PyFunc) : DispatchGroup :=
  ⟨g.gid, g.callees ++ [make_dispatch env f]⟩

/-- dispatching.DispatchGroup.dispatch_first, in state-passing form:
compile a dispatch pair and insert it at the head of `callees`
(`self.callees.appendleft(...)`). -/
def dispatch_first (env : Env) (g : DispatchGroup) (f : PyFunc) : DispatchGroup :=
  ⟨g.gid, make_dispatch env f :: g.callees⟩

/-- The loop of dispatching.DispatchGroup.lookup_explicit over the deque:
try each entry's binder in order; `except TypeError: continue` swallows a
`TypeError`-kind failure and moves on, any other exception propagates; the
first successful bind returns that entry's function; an exhausted loop
raises `DispatchError(args, kwargs, self)`. -/
def lookupList (gid : Nat) (callees : List Entry)
    (args : List Value) (kwargs : Arguments) : Except PyErr Impl :=
  match callees with
  | [] => .error (.dispatchError args kwargs gid)
  | e :: rest =>
    match e.bind args kwargs with
    | .ok _ => .ok e.impl
    | .error err =>
      if err.isTypeError then lookupList gid rest args kwargs else .error err

/-- dispatching.DispatchGroup.lookup_explicit. -/
def lookup_explicit (g : DispatchGroup) (args : List Value)
    (kwargs : Arguments) : Except PyErr Impl :=
  lookupList g.gid g.callees args kwargs

/-- dispatching.DispatchGroup.lookup: the function-call-shaped wrapper
that forwards its arguments to `lookup_explicit` unchanged. -/
def lookup (g : DispatchGroup) (args : List Value) (kwargs : Arguments) :
    Except PyErr Impl :=
  lookup_explicit g args kwargs

/-- dispatching.DispatchGroup.execute:
`self.lookup_explicit(args, kwargs)(*args, **kwargs)` — look the function
up, then call it with the caller's original positional and keyword
arguments; an exception from the lookup, or from the called function,
propagates as is. -/
def execute (g : DispatchGroup) (args : List Value) (kwargs : Arguments) :
    Except PyErr Value :=
  match lookup_explicit g args kwargs with
  | .error e => .error e
  | .ok f => f args kwargs

/-- dispatching.DispatchGroup.registered_functions: the registered
functions in the order they will be checked. -/
def registered_functions (g : DispatchGroup) : List Impl :=
  g.callees.map Entry.impl

/-- State-passing form of `lookup_explicit`: the method body iterates
`self.callees` and contains no mutation, so the group component of the
result is the input group. -/
def lookup_explicitS (g : DispatchGroup) (args : List Value)
    (kwargs : Arguments) : Except PyErr Impl × DispatchGroup :=
  (lookup_explicit g args kwargs, g)

/-- State-passing form of `lookup` (no mutation in the method body). -/
def lookupS (g : DispatchGroup) (args : List Value) (kwargs : Arguments) :
    Except PyErr Impl × DispatchGroup :=
  (lookup g args kwargs, g)

/-- State-passing form of `execute` (no mutation in the method body). -/
def executeS (g : DispatchGroup) (args : List Value) (kwargs : Arguments) :
    Except PyErr Value × DispatchGroup :=
  (execute g args kwargs, g)

/-- State-passing form of `registered_functions` (a read-only property). -/
def registered_functionsS (g : DispatchGroup) : List Impl × DispatchGroup :=
  (registered_functions g, g)

/-- The loop inside dispatching.all_match:
`all(matcher(arg) for arg in args)` with short-circuit at the first falsy
result; a matcher exception propagates. -/
def allMatchLoop (m : Matcher) : List Value → Except PyErr Bool
  | [] => .ok true
  | x :: xs =>
    match m x with
    | .error e => .error e
    | .ok r => if r.truthy then allMatchLoop m xs else .ok false

/-- dispatching.all_match: compile the annotation with
`DispatchGroup._make_param_matcher`, and return the tuple-level predicate
`lambda args: all(matcher(arg) for arg in args)`; iterating a
non-sequence raises `TypeError`. -/
def all_match (env : Env) (anno : Value) : Matcher :=
  let matcher := make_param_matcher env anno
  fun args =>
    match args with
    | .tuple l =>
      match allMatchLoop matcher l with
      | .error e => .error e
      | .ok b => .ok (.bool b)
    | .list l =>
      match allMatchLoop matcher l with
      | .error e => .error e
      | .ok b => .ok (.bool b)
    | _ => .error (.typeError "object is not iterable")

/-- Modelled from the spec: `each` is referenced by the repository's own
test suite (`dispatching.each(...)` in test_dispatching.py) but its
definition is not present under the repository sources; per spec sections
4.3 and 6 it is the combinator that, given an element-level constraint,
compiles it with the same type/predicate/literal classification as a
parameter constraint and returns the tuple-level predicate requiring
every element to satisfy the compiled element matcher. -/
def each (env : Env) (anno : Value) : Matcher :=
  let matcher := make_param_matcher env anno
  fun args =>
    match args with
    | .tuple l =>
      match allMatchLoop matcher l with
      | .error e => .error e
      | .ok b => .ok (.bool b)
    | .list l =>
      match allMatchLoop matcher l with
      | .error e => .error e
      | .ok b => .ok (.bool b)
    | _ => .error (.typeError "object is not iterable")

end Dispatching

/-- CPython BoundArguments.args (an external collaborator, modelled from
its implementation in `inspect`): walk the parameters in order; stop at
the first keyword-only or keyword-collector parameter or at the first
parameter absent from the bound arguments; a bound `varPos` contributes
its collected elements, every other bound parameter contributes its
value. -/
def boundArgsOf (sig : Sig) (bound : Arguments) : List Value :=
  match sig with
  | [] => []
  | p :: ps =>
    match p.kind with
    | .kwOnly => []
    | .varKw => []
    | _ =>
      match lookupKey p.name bound with
      | Option.none => []
      | some v =>
        match p.kind with
        | .varPos =>
          (match v with
           | .tuple l => l
           | .list l => l
           | w => [w]) ++ boundArgsOf ps bound
        | _ => v :: boundArgsOf ps bound

/-- One parameter's contribution to CPython BoundArguments.kwargs once the
keyword section has started: a bound keyword-collector spreads its
entries, any other bound parameter contributes its name and value. -/
def bkEntry (bound : Arguments) (p : Param) : Arguments :=
  match lookupKey p.name bound with
  | Option.none => []
  | some v =>
    match p.kind with
    | .varKw =>
      match v with
      | .dict l => l
      | _ => []
    | _ => [(p.name, v)]

/-- CPython BoundArguments.kwargs (modelled from its implementation in
`inspect`): parameters before the keyword section — which starts at the
first keyword-only or keyword-collector parameter or at the first unbound
parameter — contribute nothing; from there on, bound parameters
contribute their entries. -/
def boundKwargsOf (bound : Arguments) : Sig → Bool → Arguments
  | [], _ => []
  | p :: ps, started =>
    if started then bkEntry bound p ++ boundKwargsOf bound ps true
    else if p.kind == .kwOnly || p.kind == .varKw then
      bkEntry bound p ++ boundKwargsOf bound ps true
    else
      match lookupKey p.name bound with
      | Option.none => boundKwargsOf bound ps true
      | some _ => boundKwargsOf bound ps false

namespace Dispatch

/-- dispatch.DispatchGroup.dispatch, in state-passing form: append the
compiled dispatch pair at the tail of `callees`. -/
def dispatch (env : Env) (g : DispatchGroup) (f : PyFunc) : DispatchGroup :=
  ⟨g.gid, g.callees ++ [make_dispatch env f]⟩

/-- dispatch.DispatchGroup.dispatch_first, in state-passing form: insert
the compiled dispatch pair at the head of `callees`. -/
def dispatch_first (env : Env) (g : DispatchGroup) (f : PyFunc) : DispatchGroup :=
  ⟨g.gid, make_dispatch env f :: g.callees⟩

/-- The loop of dispatch.DispatchGroup.execute_dispatch: try each entry's
binder in order, swallowing `TypeError`-kind failures; on the first
successful bind call that entry's function as
`callee(*bound.args, **bound.kwargs)` — the canonical re-split computed
from the bound arguments, not the caller's original split; an exhausted
loop raises `DispatchError(args, kwargs, self)`. -/
def executeList (gid : Nat) (callees : List Entry)
    (args : List Value) (kwargs : Arguments) : Except PyErr Value :=
  match callees with
  | [] => .error (.dispatchError args kwargs gid)
  | e :: rest =>
    match e.bind args kwargs with
    | .ok bound => e.impl (boundArgsOf e.sig bound) (boundKwargsOf bound e.sig false)
    | .error err =>
      if err.isTypeError then executeList gid rest args kwargs else .error err

/-- dispatch.DispatchGroup.execute_dispatch. -/
def execute_dispatch (g : DispatchGroup) (args : List Value)
    (kwargs : Arguments) : Except PyErr Value :=
  executeList g.gid g.callees args kwargs

/-- State-passing form of `execute_dispatch` (no mutation in the body). -/
def execute_dispatchS (g : DispatchGroup) (args : List Value)
    (kwargs : Arguments) : Except PyErr Value × DispatchGroup :=
  (execute_dispatch g args kwargs, g)

end Dispatch


/-- A Boolean reading of whether a matcher accepts a value: the matcher
returns (no exception) a truthy result.  This is exactly the test
`all(...)` applies to each matcher result inside `_bind_args`. -/
def matcherAccepts (m : Matcher) (x : Value) : Bool :=
  match m x with
  | .ok v => v.truthy
  | .error _ => false

/-- Environment for the concrete instances below: callable 0 is the
predicate `is_even` (raising `TypeError` on a non-integer operand, as
`x % 2` does), callable 1 is a predicate that raises `ValueError`. -/
def envS : Env := fun i x =>
  match i with
  | 0 => match x with
         | .int n => .ok (.bool (n % 2 == 0))
         | _ => .error (.typeError "bad operand")
  | 1 => .error (.valueError "boom")
  | _ => .error (.typeError "undefined")

/-- An unannotated single parameter `x`. -/
def pX : Param := ⟨"x", .posOrKw, Option.none, Option.none⟩

/-- Parameter `x: int`. -/
def pXint : Param := ⟨"x", .posOrKw, Option.none, some (.ty .int)⟩

/-- Parameter `x: str`. -/
def pXstr : Param := ⟨"x", .posOrKw, Option.none, some (.ty .str)⟩

/-- `def f(x: int): return ("int")` of the repository's tests. -/
def fInt : PyFunc := ⟨[pXint], fun _ _ => .ok (.str "int")⟩

/-- `def f(x: str): return ("str")`. -/
def fStr : PyFunc := ⟨[pXstr], fun _ _ => .ok (.str "str")⟩

/-- The unconstrained fallback `def f(x): return ("other")`. -/
def fAny : PyFunc := ⟨[pX], fun _ _ => .ok (.str "other")⟩

/-- `def combine(*args: int)` — a type constraint on the variadic tuple. -/
def fCombineInt : PyFunc :=
  ⟨[⟨"args", .varPos, Option.none, some (.ty .int)⟩], fun _ _ => .ok (.str "sum")⟩

/-- An entry whose predicate constraint (callable 1) raises `ValueError`
when evaluated. -/
def fPredRaise : PyFunc :=
  ⟨[⟨"x", .posOrKw, Option.none, some (.func 1)⟩], fun _ _ => .ok (.str "never")⟩

/-- Environment extending `envS`: callable 2 performs a nested dispatch
against an empty group (group identity 7), so evaluating it raises that
group's `DispatchError`. -/
def envN : Env := fun i x =>
  if i == 2 then Dispatching.execute ⟨7, []⟩ [x] [] else envS i x

/-- An entry whose predicate constraint is the nested dispatch above. -/
def fPredNested : PyFunc :=
  ⟨[⟨"x", .posOrKw, Option.none, some (.func 2)⟩], fun _ _ => .ok (.str "never")⟩

/-- `def f(x)` returning the positional/keyword split it was invoked
with, making the calling convention observable. -/
def fEcho : PyFunc :=
  ⟨[pX], fun args kwargs => .ok (.tuple [.tuple args, .dict kwargs])⟩

/-- `def f(x: int): raise TypeError("non dispatch")` from test_raises. -/
def fRaisesTE : PyFunc :=
  ⟨[pXint], fun _ _ => .error (.typeError "non dispatch")⟩

/-- Helper: the dispatching.py lookup loop skips over a prefix of entries
whose binders all fail with a `TypeError`-kind exception. -/
theorem lookupList_skip_failures (gid : Nat) (pre rest : List Entry)
    (args : List Value) (kwargs : Arguments)
    (hpre : ∀ e2 ∈ pre, ∃ err, e2.bind args kwargs = .error err ∧
      err.isTypeError = true) :
    Dispatching.lookupList gid (pre ++ rest) args kwargs =
      Dispatching.lookupList gid rest args kwargs := by
  induction pre with
  | nil => rfl
  | cons e2 pre ih =>
    obtain ⟨err, he2, ht⟩ := hpre e2 (List.mem_cons_self e2 pre)
    have ihh := ih fun e3 h3 => hpre e3 (List.mem_cons_of_mem e2 h3)
    simpa [Dispatching.lookupList, he2, ht] using ihh

/-- Helper: the dispatch.py loop likewise skips over a prefix of entries
whose binders all fail with a `TypeError`-kind exception. -/
theorem executeList_skip_failures (gid : Nat) (pre rest : List Entry)
    (args : List Value) (kwargs : Arguments)
    (hpre : ∀ e2 ∈ pre, ∃ err, e2.bind args kwargs = .error err ∧
      err.isTypeError = true) :
    Dispatch.executeList gid (pre ++ rest) args kwargs =
      Dispatch.executeList gid rest args kwargs := by
  induction pre with
  | nil => rfl
  | cons e2 pre ih =>
    obtain ⟨err, he2, ht⟩ := hpre e2 (List.mem_cons_self e2 pre)
    have ihh := ih fun e3 h3 => hpre e3 (List.mem_cons_of_mem e2 h3)
    simpa [Dispatch.executeList, he2, ht] using ihh

/-- C1: execute tries the registered entries strictly in sequence order;
for the first entry whose binder succeeds it invokes that entry's
implementation and returns that implementation's result; the binder
failures (the `TypeError`-kind failures `_bind_args` is specified to
raise) of the earlier entries are swallowed and never surfaced, and no
later entry is consulted after the first success (the conclusion holds
for every `post`).  Stated for `dispatching.lookup_explicit`/`execute`
and for `dispatch.execute_dispatch`. -/
theorem first_matching_entry_executes (gid : Nat) (pre : List Entry)
    (e : Entry) (post : List Entry) (args : List Value) (kwargs : Arguments)
    (bound : Arguments)
    (hpre : ∀ e2 ∈ pre, ∃ err, e2.bind args kwargs = .error err ∧
      err.isTypeError = true)
    (hbind : e.bind args kwargs = .ok bound) :
    Dispatching.lookup_explicit ⟨gid, pre ++ e :: post⟩ args kwargs = .ok e.impl ∧
    Dispatching.execute ⟨gid, pre ++ e :: post⟩ args kwargs = e.impl args kwargs ∧
    Dispatch.execute_dispatch ⟨gid, pre ++ e :: post⟩ args kwargs =
      e.impl (boundArgsOf e.sig bound) (boundKwargsOf bound e.sig false) := by
  have hskip := lookupList_skip_failures gid pre (e :: post) args kwargs hpre
  have hskipD := executeList_skip_failures gid pre (e :: post) args kwargs hpre
  have hl : Dispatching.lookup_explicit ⟨gid, pre ++ e :: post⟩ args kwargs =
      .ok e.impl := by
    show Dispatching.lookupList gid (pre ++ e :: post) args kwargs = .ok e.impl
    rw [hskip]
    simp [Dispatching.lookupList, hbind]
  refine ⟨hl, ?_, ?_⟩
  · show (match Dispatching.lookup_explicit ⟨gid, pre ++ e :: post⟩ args kwargs with
      | .error err => .error err
      | .ok f => f args kwargs) = e.impl args kwargs
    rw [hl]
  · show Dispatch.executeList gid (pre ++ e :: post) args kwargs =
      e.impl (boundArgsOf e.sig bound) (boundKwargsOf bound e.sig false)
    rw [hskipD]
    simp [Dispatch.executeList, hbind]

/-- Witness for C1: with `f(x: int)` registered before `f(x: str)`, the
call `f("hello")` fails the first binder (swallowed `TypeError`) and
executes the second implementation, returning `"str"`. -/
theorem first_matching_entry_executes_witness :
    Dispatching.lookup_explicit
        ⟨0, [make_dispatch envS fInt] ++ make_dispatch envS fStr :: []⟩
        [.str "hello"] [] = .ok (make_dispatch envS fStr).impl ∧
    Dispatching.execute
        ⟨0, [make_dispatch envS fInt] ++ make_dispatch envS fStr :: []⟩
        [.str "hello"] [] =
      (make_dispatch envS fStr).impl [.str "hello"] [] ∧
    Dispatch.execute_dispatch
        ⟨0, [make_dispatch envS fInt] ++ make_dispatch envS fStr :: []⟩
        [.str "hello"] [] =
      (make_dispatch envS fStr).impl
        (boundArgsOf (make_dispatch envS fStr).sig [("x", .str "hello")])
        (boundKwargsOf [("x", .str "hello")] (make_dispatch envS fStr).sig false) :=
  first_matching_entry_executes 0 [make_dispatch envS fInt]
    (make_dispatch envS fStr) [] [.str "hello"] [] [("x", .str "hello")]
    (by
      intro e2 h2
      rw [List.mem_singleton] at h2
      subst h2
      exact ⟨.typeError "", rfl, rfl⟩)
    rfl

/-- Helper: every error the dispatching.py lookup loop returns is either
the `DispatchError` it raises itself on exhaustion, or a non-`TypeError`
exception produced by some entry's binder (i.e. by a user predicate
evaluated during matching). -/
theorem lookupList_error_cases (gid : Nat) (cs : List Entry)
    (args : List Value) (kwargs : Arguments) (e : PyErr)
    (h : Dispatching.lookupList gid cs args kwargs = .error e) :
    e = .dispatchError args kwargs gid ∨
      ∃ ent ∈ cs, ent.bind args kwargs = .error e ∧ e.isTypeError = false := by
  induction cs with
  | nil =>
    left
    have : PyErr.dispatchError args kwargs gid = e := by
      simpa [Dispatching.lookupList] using h
    exact this.symm
  | cons ent cs ih =>
    cases hb : ent.bind args kwargs with
    | ok bound =>
      rw [show Dispatching.lookupList gid (ent :: cs) args kwargs =
          .ok ent.impl from by simp [Dispatching.lookupList, hb]] at h
      exact absurd h (by simp)
    | error err =>
      by_cases ht : err.isTypeError
      · rw [show Dispatching.lookupList gid (ent :: cs) args kwargs =
            Dispatching.lookupList gid cs args kwargs from by
          simp [Dispatching.lookupList, hb, ht]] at h
        rcases ih h with h1 | ⟨ent2, hm, hb2, hn⟩
        · exact Or.inl h1
        · exact Or.inr ⟨ent2, List.mem_cons_of_mem ent hm, hb2, hn⟩
      · rw [show Dispatching.lookupList gid (ent :: cs) args kwargs =
            .error err from by
          simp [Dispatching.lookupList, hb, ht]] at h
        have herr : err = e := by simpa using h
        subst herr
        exact Or.inr ⟨ent, List.mem_cons_self ent cs, hb,
          by simpa using ht⟩

/-- C2: when no registered entry's binder succeeds (every binder attempt
fails with the `TypeError`-kind exception `_bind_args` is specified to
raise), `lookup_explicit`, `lookup`, `execute` and
`dispatch.execute_dispatch` all fail with
`DispatchError(args, kwargs, group)`, carrying the attempted call
arguments and the group; and `DispatchError` is the only error the
dispatch engine itself originates: any other error surfaced by the lookup
loop was produced by some entry's binder (a user predicate), not by the
engine. -/
theorem no_match_raises_dispatch_error (g : DispatchGroup)
    (args : List Value) (kwargs : Arguments) :
    ((∀ e ∈ g.callees, ∃ err, e.bind args kwargs = .error err ∧
        err.isTypeError = true) →
      Dispatching.lookup_explicit g args kwargs =
        .error (.dispatchError args kwargs g.gid) ∧
      Dispatching.lookup g args kwargs =
        .error (.dispatchError args kwargs g.gid) ∧
      Dispatching.execute g args kwargs =
        .error (.dispatchError args kwargs g.gid) ∧
      Dispatch.execute_dispatch g args kwargs =
        .error (.dispatchError args kwargs g.gid)) ∧
    (∀ e, Dispatching.lookup_explicit g args kwargs = .error e →
      e = .dispatchError args kwargs g.gid ∨
        ∃ ent ∈ g.callees, ent.bind args kwargs = .error e ∧
          e.isTypeError = false) := by
  constructor
  · intro hall
    have h1 : Dispatching.lookup_explicit g args kwargs =
        .error (.dispatchError args kwargs g.gid) := by
      show Dispatching.lookupList g.gid g.callees args kwargs = _
      have := lookupList_skip_failures g.gid g.callees [] args kwargs hall
      rw [List.append_nil] at this
      rw [this]
      rfl
    have h4 : Dispatch.execute_dispatch g args kwargs =
        .error (.dispatchError args kwargs g.gid) := by
      show Dispatch.executeList g.gid g.callees args kwargs = _
      have := executeList_skip_failures g.gid g.callees [] args kwargs hall
      rw [List.append_nil] at this
      rw [this]
      rfl
    refine ⟨h1, h1, ?_, h4⟩
    simp [Dispatching.execute, h1]
  · intro e h
    exact lookupList_error_cases g.gid g.callees args kwargs e h

/-- Witness for C2: a group holding only `f(x: int)`, called with `None`:
the single binder fails with a bare `TypeError` and every lookup or
execute path fails with `DispatchError([None], {}, group)`. -/
theorem no_match_raises_dispatch_error_witness :
    (Dispatching.lookup_explicit ⟨0, [make_dispatch envS fInt]⟩ [.none] [] =
        .error (.dispatchError [.none] [] 0) ∧
      Dispatching.lookup ⟨0, [make_dispatch envS fInt]⟩ [.none] [] =
        .error (.dispatchError [.none] [] 0) ∧
      Dispatching.execute ⟨0, [make_dispatch envS fInt]⟩ [.none] [] =
        .error (.dispatchError [.none] [] 0) ∧
      Dispatch.execute_dispatch ⟨0, [make_dispatch envS fInt]⟩ [.none] [] =
        .error (.dispatchError [.none] [] 0)) ∧
    ((PyErr.dispatchError [.none] [] 0) = .dispatchError [.none] [] 0 ∨
      ∃ ent ∈ [make_dispatch envS fInt],
        ent.bind [.none] [] = .error (.dispatchError [.none] [] 0) ∧
          (PyErr.dispatchError [.none] [] 0).isTypeError = false) := by
  have h := no_match_raises_dispatch_error ⟨0, [make_dispatch envS fInt]⟩ [.none] []
  refine ⟨h.1 ?_, h.2 (.dispatchError [.none] [] 0) (h.1 ?_).1⟩ <;>
  · intro e2 h2
    rw [List.mem_singleton] at h2
    subst h2
    exact ⟨.typeError "", rfl, rfl⟩

/-- C3: once an entry has been selected (its binder succeeded), any error
raised by the body of that implementation propagates out of execute
completely unmodified — including a `TypeError`, the very kind the
matching loop swallows internally — and never causes the loop to try a
later entry or to raise `DispatchError` instead: the call happens outside
the `try`, after the loop has returned.  Stated for
`dispatching.execute` (whatever lookup selected) and for the dispatch.py
loop (where the selected entry's call site is inside the loop body but
outside its `try`). -/
theorem implementation_error_propagates (g : DispatchGroup)
    (args : List Value) (kwargs : Arguments) (f : Impl) (e : PyErr)
    (hl : Dispatching.lookup_explicit g args kwargs = .ok f)
    (he : f args kwargs = .error e) :
    Dispatching.execute g args kwargs = .error e ∧
    (∀ (gid : Nat) (ent : Entry) (rest : List Entry) (bound : Arguments),
      ent.bind args kwargs = .ok bound →
      ent.impl (boundArgsOf ent.sig bound) (boundKwargsOf bound ent.sig false) =
        .error e →
      Dispatch.executeList gid (ent :: rest) args kwargs = .error e) := by
  constructor
  · simp [Dispatching.execute, hl, he]
  · intro gid ent rest bound hb hi
    simp [Dispatch.executeList, hb, hi]

/-- Witness for C3: `f(x: int)` raising `TypeError("non dispatch")` is
selected for the call `f(3)`; the error escapes even though the fallback
`f(x)` registered after it would match — mirroring test_raises. -/
theorem implementation_error_propagates_witness :
    Dispatching.execute ⟨0, [make_dispatch envS fRaisesTE, make_dispatch envS fAny]⟩
        [.int 3] [] = .error (.typeError "non dispatch") ∧
    (∀ (gid : Nat) (ent : Entry) (rest : List Entry) (bound : Arguments),
      ent.bind [.int 3] [] = .ok bound →
      ent.impl (boundArgsOf ent.sig bound) (boundKwargsOf bound ent.sig false) =
        .error (.typeError "non dispatch") →
      Dispatch.executeList gid (ent :: rest) [.int 3] [] =
        .error (.typeError "non dispatch")) :=
  implementation_error_propagates
    ⟨0, [make_dispatch envS fRaisesTE, make_dispatch envS fAny]⟩
    [.int 3] [] (make_dispatch envS fRaisesTE).impl (.typeError "non dispatch")
    rfl rfl

/-- C4: the entry sequence is mutated only by the two registration
operations — `dispatch` appends exactly one new entry at the tail and
`dispatch_first` inserts exactly one new entry at the head (so all
previously registered entries are preserved in their relative order, by
these list equations) — while `execute`, `lookup`, `lookup_explicit` and
`registered_functions` (whose bodies contain no mutation; state-passing
forms) leave the sequence unchanged, in particular when the call fails
with `DispatchError`; and an entry inserted by `dispatch_first` is tried
before every previously registered entry whenever its binder succeeds. -/
theorem registration_appends_and_reads_do_not_mutate (env : Env)
    (g : DispatchGroup) (f : PyFunc) (args : List Value) (kwargs : Arguments) :
    (Dispatching.dispatch env g f).callees = g.callees ++ [make_dispatch env f] ∧
    (Dispatching.dispatch_first env g f).callees =
      make_dispatch env f :: g.callees ∧
    (Dispatch.dispatch env g f).callees = g.callees ++ [make_dispatch env f] ∧
    (Dispatch.dispatch_first env g f).callees =
      make_dispatch env f :: g.callees ∧
    (Dispatching.lookup_explicitS g args kwargs).2 = g ∧
    (Dispatching.lookupS g args kwargs).2 = g ∧
    (Dispatching.executeS g args kwargs).2 = g ∧
    (Dispatching.registered_functionsS g).2 = g ∧
    (Dispatch.execute_dispatchS g args kwargs).2 = g ∧
    (∀ bound, (make_dispatch env f).bind args kwargs = .ok bound →
      Dispatching.lookup_explicit (Dispatching.dispatch_first env g f)
          args kwargs = .ok f.impl) := by
  refine ⟨rfl, rfl, rfl, rfl, rfl, rfl, rfl, rfl, rfl, ?_⟩
  intro bound hb
  show Dispatching.lookupList g.gid (make_dispatch env f :: g.callees)
      args kwargs = .ok f.impl
  simp [Dispatching.lookupList, hb]
  rfl

/-- Witness for C4: registering the override `f(x: int)` with
`dispatch_first` after the fallback `f(x)` makes the override win for
`f(1)`, and the read-only operations return the group unchanged. -/
theorem registration_appends_and_reads_do_not_mutate_witness :
    ((Dispatching.dispatch envS ⟨0, [make_dispatch envS fAny]⟩ fInt).callees =
        [make_dispatch envS fAny] ++ [make_dispatch envS fInt] ∧
      (Dispatching.dispatch_first envS ⟨0, [make_dispatch envS fAny]⟩
          fInt).callees =
        make_dispatch envS fInt :: [make_dispatch envS fAny] ∧
      (Dispatch.dispatch envS ⟨0, [make_dispatch envS fAny]⟩ fInt).callees =
        [make_dispatch envS fAny] ++ [make_dispatch envS fInt] ∧
      (Dispatch.dispatch_first envS ⟨0, [make_dispatch envS fAny]⟩
          fInt).callees =
        make_dispatch envS fInt :: [make_dispatch envS fAny] ∧
      (Dispatching.lookup_explicitS ⟨0, [make_dispatch envS fAny]⟩
          [.int 1] []).2 = ⟨0, [make_dispatch envS fAny]⟩ ∧
      (Dispatching.lookupS ⟨0, [make_dispatch envS fAny]⟩ [.int 1] []).2 =
        ⟨0, [make_dispatch envS fAny]⟩ ∧
      (Dispatching.executeS ⟨0, [make_dispatch envS fAny]⟩ [.int 1] []).2 =
        ⟨0, [make_dispatch envS fAny]⟩ ∧
      (Dispatching.registered_functionsS ⟨0, [make_dispatch envS fAny]⟩).2 =
        ⟨0, [make_dispatch envS fAny]⟩ ∧
      (Dispatch.execute_dispatchS ⟨0, [make_dispatch envS fAny]⟩
          [.int 1] []).2 = ⟨0, [make_dispatch envS fAny]⟩) ∧
    Dispatching.lookup_explicit
        (Dispatching.dispatch_first envS ⟨0, [make_dispatch envS fAny]⟩ fInt)
        [.int 1] [] = .ok fInt.impl := by
  have h := registration_appends_and_reads_do_not_mutate envS
    ⟨0, [make_dispatch envS fAny]⟩ fInt [.int 1] []
  exact ⟨⟨h.1, h.2.1, h.2.2.1, h.2.2.2.1, h.2.2.2.2.1, h.2.2.2.2.2.1,
    h.2.2.2.2.2.2.1, h.2.2.2.2.2.2.2.1, h.2.2.2.2.2.2.2.2.1⟩,
    h.2.2.2.2.2.2.2.2.2 [("x", .int 1)] rfl⟩

/-- C5: matcher compilation precedence.  A type-reference constraint
compiles to an is-instance matcher (accepting exactly instances of the
type or a subtype, via `Ty.subclass`); otherwise an invocable constraint
is used directly as the matcher, so it accepts exactly the values on
which it returns a truthy result; otherwise the literal compiles to an
equality matcher; and a parameter with no annotation contributes no
matcher entry at all, so with no constrained parameter the binder accepts
exactly what structural binding permits. -/
theorem matcher_compilation_precedence (env : Env) (ann : Value) (t : Ty)
    (x : Value) :
    (matcherAccepts (make_param_matcher env (.ty t)) x = isinstance x t) ∧
    (isinstance x t = Ty.subclass x.typeOf t) ∧
    (ann.isTypeObj = false → ann.pyCallable = true →
      make_param_matcher env ann x = callUnary env ann x) ∧
    (ann.isTypeObj = false → ann.pyCallable = false →
      matcherAccepts (make_param_matcher env ann) x = x.pyEq ann) ∧
    (∀ params : Sig,
      (make_all_matchers env params).map Prod.fst =
        (params.filter fun p => p.anno.isSome).map Param.name) ∧
    (∀ (sig : Sig) (args : List Value) (kwargs : Arguments),
      (∀ p ∈ sig, p.anno = Option.none) →
      bind_args sig (make_all_matchers env sig) args kwargs =
        sigBind sig args kwargs) := by
  refine ⟨?_, rfl, ?_, ?_, ?_, ?_⟩
  · simp [make_param_matcher, matcherAccepts, Value.isTypeObj, Value.asTy,
      Value.truthy]
  · intro h1 h2
    simp [make_param_matcher, h1, h2]
  · intro h1 h2
    simp [make_param_matcher, h1, h2, matcherAccepts, Value.truthy]
  · intro params
    induction params with
    | nil => rfl
    | cons p ps ih =>
      cases hp : p.anno with
      | none => simpa [make_all_matchers, hp] using ih
      | some a =>
        simp only [make_all_matchers, List.filterMap_cons, hp, Option.map_some,
          List.map_cons, List.filter_cons, Option.isSome_some] at ih ⊢
        simpa using ih
  · intro sig args kwargs hall
    have hm : make_all_matchers env sig = [] := by
      rw [make_all_matchers, List.filterMap_eq_nil_iff]
      intro p hp
      rw [hall p hp]
      rfl
    cases hs : sigBind sig args kwargs with
    | ok bound => simp [bind_args, hs, hm, allMatchers]
    | error e => simp [bind_args, hs]

/-- Witness for C5: `bool` values are accepted by the `int` type matcher
(subtype); the predicate constraint `is_even` is invoked directly; the
literal constraint `"lit"` matches by equality; an unannotated signature
compiles to no matchers and binds structurally. -/
theorem matcher_compilation_precedence_witness :
    (matcherAccepts (make_param_matcher envS (.ty .int)) (.bool true) =
      isinstance (.bool true) .int) ∧
    (make_param_matcher envS (.func 0) (.int 4) =
      callUnary envS (.func 0) (.int 4)) ∧
    (matcherAccepts (make_param_matcher envS (.str "lit")) (.str "lit") =
      Value.pyEq (.str "lit") (.str "lit")) ∧
    ((make_all_matchers envS [pXint, pX]).map Prod.fst =
      ([pXint, pX].filter fun p => p.anno.isSome).map Param.name) ∧
    (bind_args [pX] (make_all_matchers envS [pX]) [.int 9] [] =
      sigBind [pX] [.int 9] []) :=
  ⟨(matcher_compilation_precedence envS (.ty .int) .int (.bool true)).1,
    (matcher_compilation_precedence envS (.func 0) .int (.int 4)).2.2.1
      rfl rfl,
    (matcher_compilation_precedence envS (.str "lit") .int
        (.str "lit")).2.2.2.1 rfl rfl,
    (matcher_compilation_precedence envS (.str "lit") .int
        (.str "lit")).2.2.2.2.1 [pXint, pX],
    (matcher_compilation_precedence envS (.str "lit") .int
        (.str "lit")).2.2.2.2.2 [pX] [.int 9] []
      (by intro p hp; rw [List.mem_singleton] at hp; subst hp; rfl)⟩

/-- Helper: key lookup passes over a block whose keys all differ from the
key looked up. -/
theorem lookupKey_append_of_not_mem (k : String) (pre post : Arguments)
    (h : ∀ kv ∈ pre, kv.1 ≠ k) :
    lookupKey k (pre ++ post) = lookupKey k post := by
  induction pre with
  | nil => rfl
  | cons kv pre ih =>
    have hk : (kv.1 == k) = false := by
      simpa using h kv (List.mem_cons_self kv pre)
    calc lookupKey k ((kv :: pre) ++ post)
        = lookupKey k (pre ++ post) := by
          simp [lookupKey, hk]
      _ = lookupKey k post := ih fun kv2 h2 => h kv2 (List.mem_cons_of_mem kv h2)

/-- Helper: structural binding of a signature made of plain positional
parameters followed by a variadic-positional parameter, when there are
more positional arguments than plain parameters and no keyword arguments:
the plain parameters take the leading arguments (one name each, in
order) and the variadic parameter collects the entire remainder as one
tuple. -/
theorem bindPos_varargs (ps : Sig) (vp : Param) (args : List Value)
    (h1 : ∀ p ∈ ps, p.kind = .posOrKw)
    (h2 : ps.length < args.length)
    (hvp : vp.kind = .varPos) :
    ∃ pb, bindPos (ps ++ [vp]) args [] =
        .ok (pb ++ [(vp.name, .tuple (args.drop ps.length))], []) ∧
      pb.map Prod.fst = ps.map Param.name := by
  induction ps generalizing args with
  | nil =>
    cases args with
    | nil => simp at h2
    | cons a as =>
      refine ⟨[], ?_, rfl⟩
      simp [bindPos, hvp]
  | cons p ps ih =>
    cases args with
    | nil => simp at h2
    | cons a as =>
      have hk := (h1 p (List.mem_cons_self p ps))
      have hlen : ps.length < as.length := by
        simpa using h2
      obtain ⟨pb, hbp, hnames⟩ := ih as
        (fun p2 h2 => h1 p2 (List.mem_cons_of_mem p h2)) hlen
      refine ⟨(p.name, a) :: pb, ?_, by simpa using hnames⟩
      simp [bindPos, hk, hbp]

/-- C6: for a signature whose variadic-positional parameter carries a
constraint (any number of plain unannotated positional parameters before
it), and any call that structurally binds at least one extra positional
value to it, the binder applies the compiled matcher exactly once, to the
entire collected tuple of extra positional values — the whole outcome of
`_bind_args` factors through that single application — never to each
element individually.  In particular `combine(1, 2, 3)` against
`combine(*args: int)` fails (the tuple is not an instance of `int`) and
dispatch raises `DispatchError`, even though every element individually
is an instance of `int`. -/
theorem varargs_matcher_gets_whole_tuple (env : Env) (ann : Value)
    (ps : Sig) (vname : String) (args : List Value) (gid : Nat)
    (h1 : ∀ p ∈ ps, p.kind = .posOrKw ∧ p.anno = Option.none ∧
      p.name ≠ vname)
    (h2 : ps.length < args.length) :
    (bind_args (ps ++ [⟨vname, .varPos, Option.none, some ann⟩])
        (make_all_matchers env (ps ++ [⟨vname, .varPos, Option.none, some ann⟩]))
        args [] =
      match make_param_matcher env ann (.tuple (args.drop ps.length)) with
      | .error e => .error e
      | .ok r =>
        if r.truthy then
          sigBind (ps ++ [⟨vname, .varPos, Option.none, some ann⟩]) args []
        else .error (.typeError "")) ∧
    (Dispatching.execute ⟨gid, [make_dispatch env fCombineInt]⟩
        [.int 1, .int 2, .int 3] [] =
      .error (.dispatchError [.int 1, .int 2, .int 3] [] gid)) ∧
    (∀ v ∈ [Value.int 1, Value.int 2, Value.int 3], isinstance v .int = true) := by
  refine ⟨?_, rfl, by decide⟩
  set vp : Param := ⟨vname, .varPos, Option.none, some ann⟩ with hvpdef
  have hmm : make_all_matchers env (ps ++ [vp]) =
      [(vname, make_param_matcher env ann)] := by
    rw [make_all_matchers, List.filterMap_append]
    rw [show List.filterMap
        (fun p => p.anno.map fun a => (p.name, make_param_matcher env a))
        ps = [] from ?_]
    · rfl
    · rw [List.filterMap_eq_nil_iff]
      intro p hp
      rw [(h1 p hp).2.1]
      rfl
  obtain ⟨pb, hbp, hnames⟩ := bindPos_varargs ps vp args
    (fun p hp => (h1 p hp).1) h2 rfl
  have hsig : sigBind (ps ++ [vp]) args [] =
      .ok (pb ++ [(vp.name, .tuple (args.drop ps.length))]) := by
    rw [sigBind, hbp]
    simp [bindKw]
  have hfind : lookupKey vname (pb ++ [(vp.name, .tuple (args.drop ps.length))]) =
      some (.tuple (args.drop ps.length)) := by
    rw [lookupKey_append_of_not_mem]
    · simp [lookupKey]
    · intro kv hkv
      have : kv.1 ∈ ps.map Param.name := by
        rw [← hnames]
        exact List.mem_map_of_mem Prod.fst hkv
      obtain ⟨p, hp, hpn⟩ := List.mem_map.mp this
      rw [← hpn]
      exact (h1 p hp).2.2
  rw [bind_args, hsig, hmm]
  cases hm : make_param_matcher env ann (.tuple (args.drop ps.length)) with
  | error e => simp [allMatchers, hfind, hm]
  | ok r =>
    by_cases ht : r.truthy
    · simp [allMatchers, hfind, hm, ht, hsig]
    · simp [allMatchers, hfind, hm, ht]

/-- Witness for C6: one plain parameter `x` before `*rest: is_even`; the
call `f(0, 1, 2)` hands the predicate the single tuple `(1, 2)` (whose
evaluation fails on `1`), so the binder raises the bare `TypeError`. -/
theorem varargs_matcher_gets_whole_tuple_witness :
    (bind_args [pX, ⟨"rest", .varPos, Option.none, some (.func 0)⟩]
        (make_all_matchers envS [pX, ⟨"rest", .varPos, Option.none, some (.func 0)⟩])
        [.int 0, .int 1, .int 2] [] =
      match make_param_matcher envS (.func 0) (.tuple [.int 1, .int 2]) with
      | .error e => .error e
      | .ok r =>
        if r.truthy then
          sigBind [pX, ⟨"rest", .varPos, Option.none, some (.func 0)⟩]
            [.int 0, .int 1, .int 2] []
        else .error (.typeError "")) ∧
    (Dispatching.execute ⟨0, [make_dispatch envS fCombineInt]⟩
        [.int 1, .int 2, .int 3] [] =
      .error (.dispatchError [.int 1, .int 2, .int 3] [] 0)) ∧
    (∀ v ∈ [Value.int 1, Value.int 2, Value.int 3], isinstance v .int = true) := by
  have h := varargs_matcher_gets_whole_tuple envS (.func 0) [pX] "rest"
    [.int 0, .int 1, .int 2] 0
    (by
      intro p hp
      rw [List.mem_singleton] at hp
      subst hp
      exact ⟨rfl, rfl, by decide⟩)
    (by decide)
  simpa using h

/-- Helper: the Boolean outcome of the `all(...)` loop inside
`all_match`/`each` (false when the loop raises) equals the elementwise
conjunction of matcher acceptance. -/
theorem allMatchLoop_accepts (m : Matcher) (l : List Value) :
    (match Dispatching.allMatchLoop m l with
     | .ok b => b
     | .error _ => false) = l.all fun e => matcherAccepts m e := by
  induction l with
  | nil => rfl
  | cons x xs ih =>
    cases hm : m x with
    | error e =>
      have hx : matcherAccepts m x = false := by simp [matcherAccepts, hm]
      simp [Dispatching.allMatchLoop, hm, hx]
    | ok r =>
      by_cases ht : r.truthy
      · have hx : matcherAccepts m x = true := by simp [matcherAccepts, hm, ht]
        simpa [Dispatching.allMatchLoop, hm, ht, hx] using ih
      · have hx : matcherAccepts m x = false := by
          simp [matcherAccepts, hm]
          simpa using ht
        simp [Dispatching.allMatchLoop, hm, ht, hx]

/-- C7: the library's combinators `each` (modelled from the spec, see its
definition) and `all_match` both turn a constraint into a tuple-level
predicate that accepts a tuple exactly when every element of the tuple
satisfies the element-level matcher compiled from the constraint with the
same type/predicate/literal classification as parameter constraints. -/
theorem all_match_each_elementwise (env : Env) (ann : Value) (l : List Value) :
    (matcherAccepts (Dispatching.all_match env ann) (.tuple l) =
      l.all fun e => matcherAccepts (make_param_matcher env ann) e) ∧
    (matcherAccepts (Dispatching.each env ann) (.tuple l) =
      l.all fun e => matcherAccepts (make_param_matcher env ann) e) := by
  have h := allMatchLoop_accepts (make_param_matcher env ann) l
  have h1 : matcherAccepts (Dispatching.all_match env ann) (.tuple l) =
      (match Dispatching.allMatchLoop (make_param_matcher env ann) l with
       | .ok b => b
       | .error _ => false) := by
    cases hm : Dispatching.allMatchLoop (make_param_matcher env ann) l with
    | ok b => simp [matcherAccepts, Dispatching.all_match, hm, Value.truthy]
    | error e => simp [matcherAccepts, Dispatching.all_match, hm]
  have h2 : matcherAccepts (Dispatching.each env ann) (.tuple l) =
      (match Dispatching.allMatchLoop (make_param_matcher env ann) l with
       | .ok b => b
       | .error _ => false) := by
    cases hm : Dispatching.allMatchLoop (make_param_matcher env ann) l with
    | ok b => simp [matcherAccepts, Dispatching.each, hm, Value.truthy]
    | error e => simp [matcherAccepts, Dispatching.each, hm]
  exact ⟨h1.trans h, h2.trans h⟩

/-- Counterexample to C8 as stated: a predicate constraint that raises
`ValueError` while being evaluated during matching is NOT classified as a
matching failure — the error escapes `lookup`/`execute` unchanged, the
entry is not skipped, and the later catch-all entry (whose binder would
succeed) is never consulted, so the result is neither the next entry's
value nor a `DispatchError`. -/
theorem predicate_error_escapes_counterexample :
    Dispatching.execute
        ⟨0, [make_dispatch envS fPredRaise, make_dispatch envS fAny]⟩
        [.int 1] [] = .error (.valueError "boom") ∧
    Dispatching.lookup_explicit
        ⟨0, [make_dispatch envS fPredRaise, make_dispatch envS fAny]⟩
        [.int 1] [] = .error (.valueError "boom") ∧
    Dispatch.execute_dispatch
        ⟨0, [make_dispatch envS fPredRaise, make_dispatch envS fAny]⟩
        [.int 1] [] = .error (.valueError "boom") ∧
    (make_dispatch envS fAny).bind [.int 1] [] = .ok [("x", .int 1)] ∧
    (Except.error (.valueError "boom") ≠
      (Except.ok (Value.str "other") : Except PyErr Value)) ∧
    ((PyErr.valueError "boom") ≠ .dispatchError [.int 1] [] 0) := by
  refine ⟨rfl, rfl, rfl, rfl, by simp, by simp⟩

/-- C8 as amended: a predicate raise during matching is classified as a
matching failure exactly when the raised error is a `TypeError` (or a
subclass such as `DispatchError`): then the loop skips the entry and
continues with the rest (raising `DispatchError` if nothing is left); a
non-`TypeError` raise instead propagates to the caller of
`execute`/`lookup`. -/
theorem predicate_raise_skips_iff_type_error (gid : Nat) (ent : Entry)
    (rest : List Entry) (args : List Value) (kwargs : Arguments) (e : PyErr)
    (hb : ent.bind args kwargs = .error e) :
    (e.isTypeError = true →
      Dispatching.lookupList gid (ent :: rest) args kwargs =
        Dispatching.lookupList gid rest args kwargs ∧
      Dispatch.executeList gid (ent :: rest) args kwargs =
        Dispatch.executeList gid rest args kwargs) ∧
    (e.isTypeError = false →
      Dispatching.lookupList gid (ent :: rest) args kwargs = .error e ∧
      Dispatch.executeList gid (ent :: rest) args kwargs = .error e) := by
  constructor
  · intro ht
    exact ⟨by simp [Dispatching.lookupList, hb, ht],
      by simp [Dispatch.executeList, hb, ht]⟩
  · intro ht
    exact ⟨by simp [Dispatching.lookupList, hb, ht],
      by simp [Dispatch.executeList, hb, ht]⟩

/-- Witness for the amended C8: the `TypeError`-raising binder of
`f(x: int)` on the call `f(None)` is skipped, while the
`ValueError`-raising predicate of `fPredRaise` on `f(1)` propagates. -/
theorem predicate_raise_skips_iff_type_error_witness :
    (Dispatching.lookupList 0 (make_dispatch envS fInt :: [make_dispatch envS fAny])
        [.none] [] = Dispatching.lookupList 0 [make_dispatch envS fAny] [.none] [] ∧
      Dispatch.executeList 0 (make_dispatch envS fInt :: [make_dispatch envS fAny])
        [.none] [] = Dispatch.executeList 0 [make_dispatch envS fAny] [.none] []) ∧
    (Dispatching.lookupList 0
        (make_dispatch envS fPredRaise :: [make_dispatch envS fAny]) [.int 1] [] =
      .error (.valueError "boom") ∧
      Dispatch.executeList 0
        (make_dispatch envS fPredRaise :: [make_dispatch envS fAny]) [.int 1] [] =
      .error (.valueError "boom")) :=
  ⟨(predicate_raise_skips_iff_type_error 0 (make_dispatch envS fInt)
      [make_dispatch envS fAny] [.none] [] (.typeError "") rfl).1 rfl,
    (predicate_raise_skips_iff_type_error 0 (make_dispatch envS fPredRaise)
      [make_dispatch envS fAny] [.int 1] [] (.valueError "boom") rfl).2 rfl⟩

/-- Counterexample to C9 as stated: in `dispatch.py` the matched
implementation is invoked with `(*bound.args, **bound.kwargs)`, a
canonical re-split, not the caller's original positional/named split: for
`f(x)` called with the named argument `x=1`, the implementation observes
the positional split `((1,), {})`, not the caller's `((), {x: 1})`. -/
theorem canonicalized_split_counterexample :
    Dispatch.execute_dispatch ⟨0, [make_dispatch envS fEcho]⟩ []
        [("x", .int 1)] = .ok (.tuple [.tuple [.int 1], .dict []]) ∧
    (Value.tuple [.tuple [.int 1], .dict []] ≠
      .tuple [.tuple [], .dict [("x", .int 1)]]) :=
  ⟨rfl, by simp⟩

/-- C9 as amended: `dispatching.DispatchGroup.execute` invokes the
matched implementation with exactly the caller's original positional
sequence and named-argument mapping, while
`dispatch.DispatchGroup.execute_dispatch` invokes it with the canonical
re-split of the bound arguments (`BoundArguments.args` and
`BoundArguments.kwargs`), which can differ from the caller's split. -/
theorem call_convention_per_module (g : DispatchGroup) (args : List Value)
    (kwargs : Arguments) (f : Impl)
    (hl : Dispatching.lookup_explicit g args kwargs = .ok f) :
    Dispatching.execute g args kwargs = f args kwargs ∧
    (∀ (gid : Nat) (ent : Entry) (rest : List Entry) (bound : Arguments),
      ent.bind args kwargs = .ok bound →
      Dispatch.executeList gid (ent :: rest) args kwargs =
        ent.impl (boundArgsOf ent.sig bound) (boundKwargsOf bound ent.sig false)) := by
  constructor
  · simp [Dispatching.execute, hl]
  · intro gid ent rest bound hb
    simp [Dispatch.executeList, hb]

/-- Witness for the amended C9: the echo implementation under
`dispatching` receives the caller's original split `((), {x: 1})`; under
`dispatch` (with the same entry and call) it receives the re-split. -/
theorem call_convention_per_module_witness :
    Dispatching.execute ⟨0, [make_dispatch envS fEcho]⟩ [] [("x", .int 1)] =
      (make_dispatch envS fEcho).impl [] [("x", .int 1)] ∧
    (∀ (gid : Nat) (ent : Entry) (rest : List Entry) (bound : Arguments),
      ent.bind [] [("x", .int 1)] = .ok bound →
      Dispatch.executeList gid (ent :: rest) [] [("x", .int 1)] =
        ent.impl (boundArgsOf ent.sig bound) (boundKwargsOf bound ent.sig false)) :=
  call_convention_per_module ⟨0, [make_dispatch envS fEcho]⟩ []
    [("x", .int 1)] (make_dispatch envS fEcho).impl rfl

/-- C10: `DispatchError` subclasses the generic `TypeError` (so
`isTypeError` holds of it, and of nothing but `TypeError`-kind errors),
and the loop's internal failure handling catches exactly the
`TypeError` kind; consequently a binder failure that is itself a
`DispatchError` — e.g. a predicate performing a nested dispatch with no
matching entry — is swallowed and treated as a failed match for the
current entry rather than propagating. -/
theorem dispatch_error_caught_as_type_error (s : String) (a : List Value)
    (k : Arguments) (gi gid : Nat) (ent : Entry) (rest : List Entry)
    (args : List Value) (kwargs : Arguments) (err : PyErr)
    (hb : ent.bind args kwargs = .error err) :
    ((PyErr.dispatchError a k gi).isTypeError = true) ∧
    ((PyErr.typeError s).isTypeError = true) ∧
    ((PyErr.valueError s).isTypeError = false ∧
      (PyErr.keyError s).isTypeError = false ∧
      (PyErr.attributeError s).isTypeError = false) ∧
    (Dispatching.lookupList gid (ent :: rest) args kwargs =
      if err.isTypeError then Dispatching.lookupList gid rest args kwargs
      else .error err) ∧
    (err = .dispatchError a k gi →
      Dispatching.lookupList gid (ent :: rest) args kwargs =
        Dispatching.lookupList gid rest args kwargs) := by
  refine ⟨rfl, rfl, ⟨rfl, rfl, rfl⟩, ?_, ?_⟩
  · by_cases ht : err.isTypeError
    · simp [Dispatching.lookupList, hb, ht]
    · simp [Dispatching.lookupList, hb, ht]
  · intro he
    subst he
    simp [Dispatching.lookupList, hb, PyErr.isTypeError]

/-- Witness for C10: the predicate `fPredNested` performs a nested
dispatch against an empty group and so raises that group's
`DispatchError`; on `f(5)` this is swallowed as a failed match and the
fallback entry is selected, so the call returns `"other"`. -/
theorem dispatch_error_caught_as_type_error_witness :
    (((PyErr.dispatchError [.int 5] [] 7).isTypeError = true) ∧
      ((PyErr.typeError "m").isTypeError = true) ∧
      ((PyErr.valueError "m").isTypeError = false ∧
        (PyErr.keyError "m").isTypeError = false ∧
        (PyErr.attributeError "m").isTypeError = false) ∧
      (Dispatching.lookupList 0
          (make_dispatch envN fPredNested :: [make_dispatch envN fAny])
          [.int 5] [] =
        if (PyErr.dispatchError [.int 5] [] 7).isTypeError then
          Dispatching.lookupList 0 [make_dispatch envN fAny] [.int 5] []
        else .error (.dispatchError [.int 5] [] 7)) ∧
      Dispatching.lookupList 0
          (make_dispatch envN fPredNested :: [make_dispatch envN fAny])
          [.int 5] [] =
        Dispatching.lookupList 0 [make_dispatch envN fAny] [.int 5] []) ∧
    Dispatching.execute
        ⟨0, [make_dispatch envN fPredNested, make_dispatch envN fAny]⟩
        [.int 5] [] = .ok (.str "other") :=
  ⟨(fun h => ⟨h.1, h.2.1, h.2.2.1, h.2.2.2.1, h.2.2.2.2 rfl⟩)
      (dispatch_error_caught_as_type_error "m" [.int 5] [] 7 0
        (make_dispatch envN fPredNested) [make_dispatch envN fAny]
        [.int 5] [] (.dispatchError [.int 5] [] 7) rfl),
    rfl⟩
